import Mathlib

/-!
Verification of the support MCP server (`src/server.js`).

The server exposes three mock tools (`search_knowledge_base`,
`get_customer_data`, `log_interaction`), an SSE session map
(`transports`), a `POST /messages` router, a direct `POST /tool`
endpoint and a `GET /health` diagnostic.  Everything below is a shallow
embedding of that JavaScript source: JS strings become `String`, the JS
objects used as dictionaries become association lists, the wall clock
(`Date.now()`) becomes an explicit `Nat` millisecond parameter, and the
dynamically-typed request values of the `/tool` endpoint become an
explicit `Js` value type so that the `||`-defaulting and the
TypeError-throwing paths of the handler are modelled faithfully.
-/

namespace SupportMcp

/-! ### JS string primitives used by the handlers -/

/-- `listStartsWith hay needle` : does `needle` occur at the head of `hay`?
(The auxiliary step of JS `String.prototype.includes`.) -/
def listStartsWith : List Char → List Char → Bool
  | _, [] => true
  | [], _ :: _ => false
  | c :: cs, d :: ds => c == d && listStartsWith cs ds

/-- `listContains hay needle` : does `needle` occur contiguously anywhere in
`hay`?  Models JS `hay.includes(needle)` on the character level. -/
def listContains : List Char → List Char → Bool
  | [], needle => needle.isEmpty
  | c :: cs, needle => listStartsWith (c :: cs) needle || listContains cs needle

/-- JS `s.toLowerCase()` as a character list (the queries and keys involved
are ASCII, where `Char.toLower` agrees with the JS conversion). -/
def lowerChars (s : String) : List Char :=
  s.toList.map Char.toLower

/-- `query.toLowerCase().includes(key)` (src/server.js line 44). -/
def queryMatches (query key : String) : Bool :=
  listContains (lowerChars query) key.toList

/-! ### Mock data (`mockAnswers`, `mockCustomers`, src/server.js lines 26-37) -/

def billingAnswer : String :=
  "For billing issues, please visit billing.company.com or call 1-800-BILLING. Our billing team is available Mon-Fri 9am-5pm EST."

def technicalAnswer : String :=
  "For technical issues: (1) Restart the application. (2) Clear your browser cache. (3) If the issue persists, uninstall and reinstall the app."

def accountAnswer : String :=
  "To reset your account: Go to Settings → Security → Reset Account. You will receive an email within 5 minutes."

def generalAnswer : String :=
  "For general inquiries, please contact support@company.com. We aim to respond within 24 hours."

/-- The `mockAnswers` object as an association list; JS objects with string
keys iterate in insertion order, so `Object.keys` yields exactly the first
components in this order. -/
def mockAnswers : List (String × String) :=
  [("billing", billingAnswer), ("technical", technicalAnswer),
   ("account", accountAnswer), ("general", generalAnswer)]

/-- A customer record of the `mockCustomers` object. -/
structure CustomerRecord where
  name : String
  plan : String
  memberSince : String
  openTickets : Nat
deriving DecidableEq, Repr

def mockCustomers : List (String × CustomerRecord) :=
  [("C001", ⟨"Alice Johnson", "Premium", "2021-03-15", 2⟩),
   ("C002", ⟨"Bob Smith", "Basic", "2023-07-01", 0⟩),
   ("C003", ⟨"Carol White", "Premium", "2020-01-10", 1⟩)]

/-- The sentinel record returned by `getCustomerData` on a miss
(src/server.js lines 50-55). -/
def unknownCustomer : CustomerRecord :=
  ⟨"Unknown Customer", "N/A", "N/A", 0⟩

/-- The property names every plain object literal inherits from
`Object.prototype`.  `mockAnswers`, `mockCustomers` and `transports` are
object literals, so an indexed read with one of these names finds the
inherited member — a truthy function, or `Object.prototype` itself for
`__proto__` — instead of `undefined`.  Own-key operations
(`Object.keys`, assignment, `delete`, destructuring of own fields) are
unaffected. -/
def objectPrototypeKeys : List String :=
  ["constructor", "hasOwnProperty", "isPrototypeOf", "propertyIsEnumerable",
   "toLocaleString", "toString", "valueOf",
   "__defineGetter__", "__defineSetter__", "__lookupGetter__", "__lookupSetter__",
   "__proto__"]

/-- A value that `mockCustomers[customerId]` can produce: an own customer
record, or a member inherited from `Object.prototype` (named by its key; a
truthy function, or `Object.prototype` itself for `__proto__`). -/
inductive CustomerValue where
  | record (r : CustomerRecord)
  | builtinFn (name : String)
deriving DecidableEq, Repr

/-- The JS property read `mockCustomers[customerId]`, prototype chain
included: an own key yields its record; a name inherited from
`Object.prototype` yields that inherited member; anything else reads as
`undefined` (`none`). -/
def readCustomerProp (customerId : String) : Option CustomerValue :=
  match mockCustomers.lookup customerId with
  | some r => some (.record r)
  | none =>
    if customerId ∈ objectPrototypeKeys then some (.builtinFn customerId) else none

/-! ### The helper functions (src/server.js lines 42-67) -/

/-- `searchKnowledgeBase` (src/server.js lines 42-47):
`Object.keys(mockAnswers).find(key => query.toLowerCase().includes(key))`,
then `mockAnswers[matchedKey]` with `mockAnswers.general` as fallback. -/
def searchKnowledgeBase (query : String) : String :=
  match (mockAnswers.map Prod.fst).find? (fun key => queryMatches query key) with
  | some key => (mockAnswers.lookup key).getD generalAnswer
  | none => generalAnswer

/-- `getCustomerData` (src/server.js lines 49-56):
`mockCustomers[customerId] || {...sentinel...}`.  Every value the property
read finds — an own record or an inherited `Object.prototype` member — is
truthy and is returned as-is; the `||` sentinel fires only when the read
yields `undefined`. -/
def getCustomerData (customerId : String) : CustomerValue :=
  match readCustomerProp customerId with
  | some v => v
  | none => .record unknownCustomer

example : searchKnowledgeBase "I have a BILLING question" = billingAnswer := by decide
example : searchKnowledgeBase "asdf" = generalAnswer := by decide
example : getCustomerData "C001" = .record ⟨"Alice Johnson", "Premium", "2021-03-15", 2⟩ := by
  decide
example : getCustomerData "C999" = .record unknownCustomer := by decide
example : getCustomerData "toString" = .builtinFn "toString" := by decide

/-! ### The clock (`Date.now()`, `new Date().toISOString()`)

`logInteraction` reads the wall clock; we model it with an explicit
`nowMs : Nat` parameter, the milliseconds since the Unix epoch that
`Date.now()` returns.  `toISOString` is the JS runtime's conversion of
that count to `YYYY-MM-DDTHH:MM:SS.sssZ` over the proleptic Gregorian
calendar; `isoOfMs` below implements exactly that conversion (it agrees
with JS for timestamps whose year is below 10000, after which JS switches
to the expanded six-digit-year format). -/

/-- The decimal digit character for `n % 10`. -/
def digitChar (n : Nat) : Char :=
  Char.ofNat (48 + n % 10)

/-- Fuel-indexed decimal rendering: with positive fuel, emits the digits of
`n` most significant first; `n` has at most `n + 1` digits, so the fuel in
`decDigits` never runs out. -/
def decDigitsAux : Nat → Nat → List Char
  | 0, _ => []
  | fuel + 1, n => if n < 10 then [digitChar n] else decDigitsAux fuel (n / 10) ++ [digitChar n]

/-- The decimal digits of `n`, most significant first (the JS rendering of
an integer by a template literal such as the one building the ticket id). -/
def decDigits (n : Nat) : List Char :=
  decDigitsAux (n + 1) n

def decString (n : Nat) : String :=
  String.mk (decDigits n)

/-- Days since 1970-01-01 to `(year, month, day)` in the proleptic Gregorian
calendar (the standard civil-from-days algorithm, restricted to `z ≥ 0`). -/
def civilFromDays (z : Nat) : Nat × Nat × Nat :=
  let z2 := z + 719468
  let era := z2 / 146097
  let doe := z2 % 146097
  let yoe := (doe - doe / 1460 + doe / 36524 - doe / 146096) / 365
  let y := yoe + era * 400
  let doy := doe - (365 * yoe + yoe / 4 - yoe / 100)
  let mp := (5 * doy + 2) / 153
  let d := doy - (153 * mp + 2) / 5 + 1
  let m := if mp < 10 then mp + 3 else mp - 9
  (if m ≤ 2 then y + 1 else y, m, d)

/-- The character list of `new Date(ms).toISOString()` for epoch years up to
9999: zero-padded year, month, day, hour, minute, second and milliseconds. -/
def isoChars (ms : Nat) : List Char :=
  let msPart := ms % 1000
  let totalSec := ms / 1000
  let secOfDay := totalSec % 86400
  let days := totalSec / 86400
  let ymd := civilFromDays days
  let y := ymd.1
  let mo := ymd.2.1
  let d := ymd.2.2
  let hh := secOfDay / 3600
  let mi := secOfDay / 60 % 60
  let ss := secOfDay % 60
  [digitChar (y / 1000), digitChar (y / 100), digitChar (y / 10), digitChar y, '-',
   digitChar (mo / 10), digitChar mo, '-', digitChar (d / 10), digitChar d, 'T',
   digitChar (hh / 10), digitChar hh, ':', digitChar (mi / 10), digitChar mi, ':',
   digitChar (ss / 10), digitChar ss, '.', digitChar (msPart / 100), digitChar (msPart / 10),
   digitChar msPart, 'Z']

def isoOfMs (ms : Nat) : String :=
  String.mk (isoChars ms)

/-- `logInteraction` (src/server.js lines 58-67): builds
`ticketId = TKT-${Date.now()}` and `timestamp = toISOString()`, writes the
inputs to the console log only (lines 61-65; `customerId`, `category` and
`resolution` never reach the return value), and returns the confirmation
string of line 66. -/
def logInteraction (nowMs : Nat) (customerId category resolution : String) : String :=
  "Interaction logged successfully. Ticket ID: TKT-" ++ decString nowMs ++
    ". Timestamp: " ++ isoOfMs nowMs

example : isoOfMs 0 = "1970-01-01T00:00:00.000Z" := by decide
example : isoOfMs 1700000000123 = "2023-11-14T22:13:20.123Z" := by decide
example : decString 1700000000123 = "1700000000123" := by decide

/-! ### ISO-8601 shape checker -/

/-- `checkShape ps cs` : the characters `cs` satisfy the positional
predicates `ps`, with matching length. -/
def checkShape : List (Char → Bool) → List Char → Bool
  | [], [] => true
  | p :: ps, c :: cs => p c && checkShape ps cs
  | _, _ => false

/-- Positional shape of an ISO-8601 extended UTC timestamp
`YYYY-MM-DDTHH:MM:SS.sssZ`. -/
def isoShape : List (Char → Bool) :=
  [Char.isDigit, Char.isDigit, Char.isDigit, Char.isDigit, (· == '-'),
   Char.isDigit, Char.isDigit, (· == '-'), Char.isDigit, Char.isDigit, (· == 'T'),
   Char.isDigit, Char.isDigit, (· == ':'), Char.isDigit, Char.isDigit, (· == ':'),
   Char.isDigit, Char.isDigit, (· == '.'), Char.isDigit, Char.isDigit, Char.isDigit,
   (· == 'Z')]

def isValidISO (s : String) : Bool :=
  checkShape isoShape s.toList

example : isValidISO "2023-11-14T22:13:20.123Z" = true := by decide
example : isValidISO "2023-11-14" = false := by decide

theorem digitChar_isDigit (n : Nat) : (digitChar n).isDigit = true := by
  have key : ∀ m, m < 10 → (Char.ofNat (48 + m)).isDigit = true := by decide
  simpa [digitChar] using key (n % 10) (Nat.mod_lt _ (by omega))

theorem decDigits_ne_nil (n : Nat) : decDigits n ≠ [] := by
  show decDigitsAux (n + 1) n ≠ []
  unfold decDigitsAux
  split <;> simp

theorem decDigitsAux_all_isDigit (fuel n : Nat) :
    (decDigitsAux fuel n).all Char.isDigit = true := by
  induction fuel generalizing n with
  | zero => rfl
  | succ fuel ih =>
    unfold decDigitsAux
    split
    · simp [digitChar_isDigit]
    · simp [List.all_append, digitChar_isDigit, ih]

theorem decDigits_all_isDigit (n : Nat) : (decDigits n).all Char.isDigit = true :=
  decDigitsAux_all_isDigit (n + 1) n

theorem isValidISO_isoOfMs (ms : Nat) : isValidISO (isoOfMs ms) = true := by
  show checkShape isoShape (isoChars ms) = true
  unfold isoChars
  simp [checkShape, isoShape, digitChar_isDigit]

/-! ### The SSE session store (`transports`, src/server.js lines 115-137)

The `transports` object maps a session id to its transport; all the claims
concern its key set, so the state is the list of live session ids.  A new
connection stores the transport under a freshly generated id
(`transports[transport.sessionId] = transport`, line 120); the `close`
handler deletes that key (line 123, JS `delete` being a no-op on an absent
key); `GET /health` reports `Object.keys(transports).length` (line 193). -/

/-- `transports[id] = transport` on the key set: adds `id` if absent
(assignment to a present key overwrites the value, leaving the key set
unchanged). -/
def connectSession (id : String) (transports : List String) : List String :=
  if id ∈ transports then transports else id :: transports

/-- `delete transports[id]` on the key set. -/
def closeSession (id : String) (transports : List String) : List String :=
  transports.erase id

/-- The `activeSessions` field of `GET /health`:
`Object.keys(transports).length`. -/
def healthActiveSessions (transports : List String) : Nat :=
  transports.length

/-- Outcome of `POST /messages` (src/server.js lines 128-137): the request
is forwarded to the matching live transport
(`transport.handlePostMessage`), or the handler throws without sending a
response, or it is rejected with a status and error body. -/
inductive MessagesOutcome where
  | forwarded (sessionId : String)
  | thrown (message : String)
  | rejected (status : Nat) (error : String)
deriving DecidableEq, Repr

/-- Modelled message of the TypeError thrown when `transports[sessionId]`
finds an inherited `Object.prototype` member: the truthy check passes but
the value has no `handlePostMessage` method. -/
def handlePostMessageTypeErrorMsg : String :=
  "transport.handlePostMessage is not a function"

/-- The `POST /messages` handler: reads `transports[sessionId]`, prototype
chain included.  A live (own-key) session forwards; an inherited
`Object.prototype` name is truthy, so `if (transport)` passes and calling
`transport.handlePostMessage` throws a TypeError out of the async handler —
the 400 response is never sent; only a read that yields `undefined` answers
`400 {error: "Unknown session ID. Please reconnect via /sse first."}`.
No branch mutates `transports`, so the handler returns the store unchanged
alongside the outcome. -/
def handleMessages (transports : List String) (sessionId : String) :
    MessagesOutcome × List String :=
  if sessionId ∈ transports then
    (.forwarded sessionId, transports)
  else if sessionId ∈ objectPrototypeKeys then
    (.thrown handlePostMessageTypeErrorMsg, transports)
  else
    (.rejected 400 "Unknown session ID. Please reconnect via /sse first.", transports)

/-! ### JS values of the `/tool` request body

`POST /tool` destructures `req.body` into `name` and `arguments` and then
reads fields off `arguments` with JS dynamic typing.  `Js` covers the
value shapes a JSON body can put in a field: string, number, boolean,
`null`, absent (`undefined`), or some other object (`vObj`, standing for
any object or array value, which is always truthy and has no string
methods). -/

inductive Js where
  | vStr (s : String)
  | vNum (n : Int)
  | vBool (b : Bool)
  | vNull
  | vUndef
  | vObj
deriving DecidableEq, Repr

/-- JS truthiness: `undefined`, `null`, `false`, `0` and `""` are falsy. -/
def truthy : Js → Bool
  | .vStr s => !s.isEmpty
  | .vNum n => n != 0
  | .vBool b => b
  | .vNull => false
  | .vUndef => false
  | .vObj => true

/-- JS `a || b`. -/
def jsOr (a b : Js) : Js :=
  if truthy a then a else b

/-- Reading a field off an `arguments` object: absent keys read as
`undefined`. -/
def getField (fields : List (String × Js)) (key : String) : Js :=
  (fields.lookup key).getD Js.vUndef

/-- A destructuring default `{ field = "" }`: applies only to `undefined`
(unlike `||`, which also replaces other falsy values). -/
def defaultIfUndefined : Js → Js
  | .vUndef => .vStr ""
  | v => v

/-- JS string coercion (`ToString`) of a scalar, as used when a value is
interpolated into a template literal or used as a property key. -/
def jsToStr : Js → String
  | .vStr s => s
  | .vNum n => if n < 0 then "-" ++ decString n.natAbs else decString n.natAbs
  | .vBool b => if b then "true" else "false"
  | .vNull => "null"
  | .vUndef => "undefined"
  | .vObj => "[object Object]"

/-! ### The direct `POST /tool` endpoint (src/server.js lines 143-177) -/

/-- A tool result value: a string (`search_knowledge_base`,
`log_interaction`), a customer record, or an inherited `Object.prototype`
member leaked by the customer lookup (`get_customer_data`). -/
inductive ToolResultVal where
  | rStr (s : String)
  | rRec (r : CustomerRecord)
  | rFn (name : String)
deriving DecidableEq, Repr

/-- The `result` value `get_customer_data` puts in the 200 response body. -/
def toolResultOfCustomer : CustomerValue → ToolResultVal
  | .record r => .rRec r
  | .builtinFn f => .rFn f

/-- The response of `POST /tool`: `200 {success:true, result}`,
`400 {success:false, error}`, or — when the `try` block throws —
`500 {success:false, error: err.message}`. -/
inductive ToolResponse where
  | ok (result : ToolResultVal)
  | badRequest (error : String)
  | serverError (error : String)
deriving DecidableEq, Repr

def statusOf : ToolResponse → Nat
  | .ok _ => 200
  | .badRequest _ => 400
  | .serverError _ => 500

def successOf : ToolResponse → Bool
  | .ok _ => true
  | _ => false

/-- Modelled message of the TypeError thrown when a field is read off an
absent `arguments` (`args.query` with `args === undefined`), or when
`undefined` is destructured. -/
def undefinedAccessMsg : String :=
  "Cannot read properties of undefined"

/-- Modelled message of the TypeError thrown by `query.toLowerCase()` on a
non-string query. -/
def toLowerCaseTypeErrorMsg : String :=
  "query.toLowerCase is not a function"

/-- Modelled message of the TypeError thrown by `resolution.substring(0, 80)`
on a non-string resolution (src/server.js line 65). -/
def substringTypeErrorMsg : String :=
  "resolution.substring is not a function"

/-- The `search_knowledge_base` branch of `/tool` (src/server.js lines
149-153): `const query = args.query || ""` — throwing when `args` itself is
absent — then `searchKnowledgeBase(query)`, which throws on a non-string
truthy query (`query.toLowerCase` is not a function). -/
def searchToolBranch (args : Option (List (String × Js))) : ToolResponse :=
  match args with
  | none => .serverError undefinedAccessMsg
  | some fields =>
    match jsOr (getField fields "query") (.vStr "") with
    | .vStr q => .ok (.rStr (searchKnowledgeBase q))
    | _ => .serverError toLowerCaseTypeErrorMsg

/-- The `get_customer_data` branch of `/tool` (src/server.js lines 155-159):
`const customerId = args.customerId || ""`, then a lookup that coerces any
value to a property key and never throws. -/
def customerToolBranch (args : Option (List (String × Js))) : ToolResponse :=
  match args with
  | none => .serverError undefinedAccessMsg
  | some fields =>
    .ok (toolResultOfCustomer
      (getCustomerData (jsToStr (jsOr (getField fields "customerId") (.vStr "")))))

/-- The `log_interaction` branch of `/tool` (src/server.js lines 161-165):
`const { customerId = "", category = "", resolution = "" } = args`
(destructuring defaults apply to `undefined` only, and throw when `args`
itself is absent), then `logInteraction`, which throws on a non-string
resolution at `resolution.substring(0, 80)`. -/
def logToolBranch (nowMs : Nat) (args : Option (List (String × Js))) : ToolResponse :=
  match args with
  | none => .serverError undefinedAccessMsg
  | some fields =>
    let customerId := defaultIfUndefined (getField fields "customerId")
    let category := defaultIfUndefined (getField fields "category")
    match defaultIfUndefined (getField fields "resolution") with
    | .vStr resolution =>
      .ok (.rStr (logInteraction nowMs (jsToStr customerId) (jsToStr category) resolution))
    | _ => .serverError substringTypeErrorMsg

/-- The `POST /tool` handler (src/server.js lines 143-177).  `name` is the
`name` field of the body, `args` its `arguments` field (`none` when the
body has no `arguments`).  Each known-tool branch reads fields off `args`
with `||`- or destructuring-defaults and calls the shared helper; any
exception thrown inside the `try` block is caught and answered with 500.
The unknown-tool branch never touches `args`. -/
def handleTool (nowMs : Nat) (name : String) (args : Option (List (String × Js))) :
    ToolResponse :=
  if name = "search_knowledge_base" then searchToolBranch args
  else if name = "get_customer_data" then customerToolBranch args
  else if name = "log_interaction" then logToolBranch nowMs args
  else
    .badRequest ("Unknown tool: " ++ name ++
      ". Available tools: search_knowledge_base, get_customer_data, log_interaction")

example :
    handleTool 0 "search_knowledge_base" (some [("query", .vStr "billing help")]) =
      .ok (.rStr billingAnswer) := by decide
example :
    handleTool 0 "search_knowledge_base" (some []) = .ok (.rStr generalAnswer) := by decide
example :
    handleTool 0 "search_knowledge_base" (some [("query", .vNum 42)]) =
      .serverError toLowerCaseTypeErrorMsg := by decide
example :
    handleTool 0 "get_customer_data" (some [("customerId", .vNum 42)]) =
      .ok (.rRec unknownCustomer) := by decide
example :
    handleTool 0 "log_interaction" (some [("resolution", .vNum 5)]) =
      .serverError substringTypeErrorMsg := by decide
example :
    handleTool 0 "frobnicate" none =
      .badRequest "Unknown tool: frobnicate. Available tools: search_knowledge_base, get_customer_data, log_interaction" := by
  decide

/-! ### Helper lemmas -/

/-- `searchKnowledgeBase` as the first-match cascade over the key order of
`mockAnswers`. -/
theorem searchKnowledgeBase_eq_cascade (q : String) :
    searchKnowledgeBase q =
      if queryMatches q "billing" then billingAnswer
      else if queryMatches q "technical" then technicalAnswer
      else if queryMatches q "account" then accountAnswer
      else generalAnswer := by
  unfold searchKnowledgeBase
  cases h1 : queryMatches q "billing" <;>
    cases h2 : queryMatches q "technical" <;>
      cases h3 : queryMatches q "account" <;>
        cases h4 : queryMatches q "general" <;>
          simp [mockAnswers, List.find?, List.lookup, h1, h2, h3, h4]

/-! ### The claims -/

/-- C1: over any store of live session ids, a new SSE connection (with a
fresh id) raises the `/health` `activeSessions` count by exactly one, its
close lowers the count back by exactly one, neither step changes whether
any other id is live, and the close-handler removal is idempotent: deleting
the id again is a no-op. -/
theorem session_lifecycle_health_count (st : List String) (id : String)
    (hfresh : id ∉ st) :
    healthActiveSessions (connectSession id st) = healthActiveSessions st + 1 ∧
    healthActiveSessions (closeSession id (connectSession id st)) =
      healthActiveSessions st ∧
    (∀ j, j ≠ id →
      ((j ∈ connectSession id st) ↔ j ∈ st) ∧
      ((j ∈ closeSession id (connectSession id st)) ↔ j ∈ st)) ∧
    closeSession id (closeSession id (connectSession id st)) =
      closeSession id (connectSession id st) := by
  have hconn : connectSession id st = id :: st := if_neg hfresh
  have hclose : closeSession id (id :: st) = st := List.erase_cons_head id st
  refine ⟨?_, ?_, ?_, ?_⟩
  · simp [healthActiveSessions, hconn]
  · rw [hconn, hclose]
  · intro j hj
    refine ⟨?_, ?_⟩
    · rw [hconn]
      simp [List.mem_cons, hj]
    · rw [hconn, hclose]
  · rw [hconn, hclose]
    exact List.erase_of_not_mem hfresh

/-- Witness for C1 at the concrete store `["s1"]` and fresh id `"s2"`. -/
theorem session_lifecycle_health_count_witness :
    ("s2" ∉ (["s1"] : List String)) ∧
    (healthActiveSessions (connectSession "s2" ["s1"]) =
        healthActiveSessions ["s1"] + 1 ∧
      healthActiveSessions (closeSession "s2" (connectSession "s2" ["s1"])) =
        healthActiveSessions ["s1"] ∧
      (∀ j, j ≠ "s2" →
        ((j ∈ connectSession "s2" ["s1"]) ↔ j ∈ (["s1"] : List String)) ∧
        ((j ∈ closeSession "s2" (connectSession "s2" ["s1"])) ↔
          j ∈ (["s1"] : List String))) ∧
      closeSession "s2" (closeSession "s2" (connectSession "s2" ["s1"])) =
        closeSession "s2" (connectSession "s2" ["s1"])) :=
  ⟨by decide, session_lifecycle_health_count ["s1"] "s2" (by decide)⟩

/-- C2 counterexample: the session id `"toString"` was never created, yet
the program does not answer the 400 unknown-session body — the property
read finds the inherited truthy `Object.prototype.toString`, `if
(transport)` passes, and the forwarded call throws a TypeError instead of
responding. -/
theorem messages_unknown_session_counterexample :
    ("toString" ∉ ([] : List String)) ∧
    handleMessages [] "toString" ≠
      (.rejected 400 "Unknown session ID. Please reconnect via /sse first.",
       ([] : List String)) ∧
    handleMessages [] "toString" =
      (.thrown handlePostMessageTypeErrorMsg, ([] : List String)) :=
  ⟨by decide, by decide, by decide⟩

/-- C2 amended: posting to `/messages` with a session id that is not live
and does not name a property inherited from `Object.prototype` answers
`400 {error: "Unknown session ID. Please reconnect via /sse first."}` and
leaves the session store unchanged — no session is created as a side
effect.  (For an inherited name the truthy check passes and
`transport.handlePostMessage` throws, so no 400 is sent — the
counterexample.) -/
theorem messages_unknown_session_400 (transports : List String)
    (sessionId : String) (h : sessionId ∉ transports)
    (hp : sessionId ∉ objectPrototypeKeys) :
    handleMessages transports sessionId =
      (.rejected 400 "Unknown session ID. Please reconnect via /sse first.",
       transports) := by
  simp [handleMessages, h, hp]

/-- Witness for the amended C2 at a session id that was created and then
closed, so the store is empty again and the id is not live. -/
theorem messages_unknown_session_400_witness :
    ("a" ∉ closeSession "a" (connectSession "a" []) ∧
      "a" ∉ objectPrototypeKeys) ∧
    handleMessages (closeSession "a" (connectSession "a" [])) "a" =
      (.rejected 400 "Unknown session ID. Please reconnect via /sse first.",
       closeSession "a" (connectSession "a" [])) :=
  ⟨⟨by decide, by decide⟩, messages_unknown_session_400 _ _ (by decide) (by decide)⟩

/-- C3: for every query, `searchKnowledgeBase` returns the canned answer of
the first key in the `mockAnswers` iteration order (billing, technical,
account, general) whose text occurs in the lowercased query, with the
general answer as the no-match fallback; matching is case-insensitive, so
"I have a BILLING question" yields the billing answer and "asdf" the
general fallback. -/
theorem search_first_match_policy (q : String) :
    searchKnowledgeBase q =
      (if queryMatches q "billing" then billingAnswer
       else if queryMatches q "technical" then technicalAnswer
       else if queryMatches q "account" then accountAnswer
       else generalAnswer) ∧
    searchKnowledgeBase "I have a BILLING question" = billingAnswer ∧
    searchKnowledgeBase "asdf" = generalAnswer :=
  ⟨searchKnowledgeBase_eq_cascade q, by decide, by decide⟩

/-- C6 counterexample: `"toString"` is not one of the three fixed
customers, yet `getCustomerData` does not return the sentinel — the
property read finds the inherited truthy `Object.prototype.toString`, so
the `||` sentinel never fires. -/
theorem get_customer_data_counterexample :
    (("toString" : String) ≠ "C001" ∧ ("toString" : String) ≠ "C002" ∧
      ("toString" : String) ≠ "C003") ∧
    getCustomerData "toString" ≠ .record unknownCustomer ∧
    getCustomerData "toString" = .builtinFn "toString" :=
  ⟨⟨by decide, by decide, by decide⟩, by decide, by decide⟩

/-- C6 amended: `getCustomerData` is total; `"C001"` maps to Alice
Johnson's exact record, and every id that is neither one of the three
fixed customers nor a property name inherited from `Object.prototype`
maps to the sentinel unknown-customer record rather than an error.  (An
inherited name such as `"toString"` instead returns the inherited truthy
member, bypassing the `||` sentinel — the counterexample.) -/
theorem get_customer_data_spec (id : String)
    (h1 : id ≠ "C001") (h2 : id ≠ "C002") (h3 : id ≠ "C003")
    (hp : id ∉ objectPrototypeKeys) :
    getCustomerData "C001" =
      .record ⟨"Alice Johnson", "Premium", "2021-03-15", 2⟩ ∧
    getCustomerData id = .record unknownCustomer := by
  refine ⟨by decide, ?_⟩
  have b1 : (id == "C001") = false := beq_eq_false_iff_ne.mpr h1
  have b2 : (id == "C002") = false := beq_eq_false_iff_ne.mpr h2
  have b3 : (id == "C003") = false := beq_eq_false_iff_ne.mpr h3
  simp [getCustomerData, readCustomerProp, mockCustomers, List.lookup, b1, b2, b3, hp]

/-- Witness for the amended C6 at the non-customer id `"C999"`. -/
theorem get_customer_data_spec_witness :
    (("C999" : String) ≠ "C001" ∧ ("C999" : String) ≠ "C002" ∧
      ("C999" : String) ≠ "C003" ∧ "C999" ∉ objectPrototypeKeys) ∧
    (getCustomerData "C001" =
        .record ⟨"Alice Johnson", "Premium", "2021-03-15", 2⟩ ∧
      getCustomerData "C999" = .record unknownCustomer) :=
  ⟨⟨by decide, by decide, by decide, by decide⟩,
   get_customer_data_spec "C999" (by decide) (by decide) (by decide) (by decide)⟩

/-- C10: every `searchKnowledgeBase` result is one of the four canned
answers of `mockAnswers`, and the no-match fallback is the very string of
the "general" key, so a query matching "general" and a query matching
nothing return identical text. -/
theorem search_closed_answer_set (q : String) :
    searchKnowledgeBase q ∈
      [billingAnswer, technicalAnswer, accountAnswer, generalAnswer] ∧
    searchKnowledgeBase "any general info" = searchKnowledgeBase "qwerty" := by
  refine ⟨?_, by decide⟩
  rw [searchKnowledgeBase_eq_cascade q]
  split_ifs <;> simp

/-- `handleTool` dispatches `search_knowledge_base` to its branch. -/
theorem handleTool_search_eq (now : Nat) (args : Option (List (String × Js))) :
    handleTool now "search_knowledge_base" args = searchToolBranch args := rfl

/-- `handleTool` dispatches `get_customer_data` to its branch. -/
theorem handleTool_customer_eq (now : Nat) (args : Option (List (String × Js))) :
    handleTool now "get_customer_data" args = customerToolBranch args := rfl

/-- `handleTool` dispatches `log_interaction` to its branch. -/
theorem handleTool_log_eq (now : Nat) (args : Option (List (String × Js))) :
    handleTool now "log_interaction" args = logToolBranch now args := rfl

/-- The `search_knowledge_base` branch of `/tool` never answers 400: it
either runs the helper (200) or throws inside `try` (500). -/
theorem handleTool_search_ne_400 (now : Nat) (args : Option (List (String × Js))) :
    statusOf (handleTool now "search_knowledge_base" args) ≠ 400 := by
  rw [handleTool_search_eq]
  cases args with
  | none => decide
  | some fields =>
    simp only [searchToolBranch]
    cases jsOr (getField fields "query") (.vStr "") <;> simp [statusOf]

/-- The `get_customer_data` branch of `/tool` never answers 400. -/
theorem handleTool_customer_ne_400 (now : Nat) (args : Option (List (String × Js))) :
    statusOf (handleTool now "get_customer_data" args) ≠ 400 := by
  rw [handleTool_customer_eq]
  cases args with
  | none => decide
  | some fields => simp [customerToolBranch, statusOf]

/-- The `log_interaction` branch of `/tool` never answers 400. -/
theorem handleTool_log_ne_400 (now : Nat) (args : Option (List (String × Js))) :
    statusOf (handleTool now "log_interaction" args) ≠ 400 := by
  rw [handleTool_log_eq]
  cases args with
  | none => simp [logToolBranch, statusOf]
  | some fields =>
    simp only [logToolBranch]
    cases defaultIfUndefined (getField fields "resolution") <;> simp [statusOf]

/-- C4 counterexample: the `/tool` request naming `search_knowledge_base`
with its required `query` field missing is not rejected with 400 — the
handler runs on the defaulted empty query and answers 200 success. -/
theorem tool_validation_counterexample :
    statusOf (handleTool 0 "search_knowledge_base" (some [])) ≠ 400 ∧
    handleTool 0 "search_knowledge_base" (some []) = .ok (.rStr generalAnswer) :=
  ⟨by decide, by decide⟩

/-- C4 amended: `POST /tool` performs no schema validation.  A missing
required string field is defaulted (to the empty string) and the handler
runs, answering 200 success; a wrong-typed field is either coerced
(`get_customer_data`, answering 200) or throws inside the `try` block
(non-string `query` or `resolution`), answering `500 {success:false,
error}`; no 400 `InvalidInput` response exists — on this endpoint 400
arises only for an unknown tool name. -/
theorem tool_no_schema_validation (now : Nat) (n : Int) (hn : n ≠ 0) :
    handleTool now "search_knowledge_base" (some []) =
      .ok (.rStr (searchKnowledgeBase "")) ∧
    handleTool now "search_knowledge_base" (some [("query", .vNum n)]) =
      .serverError toLowerCaseTypeErrorMsg ∧
    handleTool now "log_interaction" (some [("resolution", .vNum n)]) =
      .serverError substringTypeErrorMsg ∧
    handleTool now "get_customer_data" (some [("customerId", .vObj)]) =
      .ok (.rRec unknownCustomer) ∧
    (∀ nm args, statusOf (handleTool now nm args) = 400 →
      nm ≠ "search_knowledge_base" ∧ nm ≠ "get_customer_data" ∧
        nm ≠ "log_interaction") := by
  refine ⟨rfl, ?_, rfl, rfl, ?_⟩
  · have hb : (n != 0) = true := by simp [hn]
    have e : handleTool now "search_knowledge_base" (some [("query", .vNum n)]) =
        (match jsOr (.vNum n) (.vStr "") with
         | .vStr q => .ok (.rStr (searchKnowledgeBase q))
         | _ => .serverError toLowerCaseTypeErrorMsg) := rfl
    rw [e]
    simp [jsOr, truthy, hb]
  · intro nm args h400
    refine ⟨fun hEq => ?_, fun hEq => ?_, fun hEq => ?_⟩ <;> subst hEq
    · exact handleTool_search_ne_400 now args h400
    · exact handleTool_customer_ne_400 now args h400
    · exact handleTool_log_ne_400 now args h400

/-- Witness for the amended C4 at `now = 0` and the wrong-typed number 7. -/
theorem tool_no_schema_validation_witness :
    ((7 : Int) ≠ 0) ∧
    (handleTool 0 "search_knowledge_base" (some []) =
        .ok (.rStr (searchKnowledgeBase "")) ∧
      handleTool 0 "search_knowledge_base" (some [("query", .vNum 7)]) =
        .serverError toLowerCaseTypeErrorMsg ∧
      handleTool 0 "log_interaction" (some [("resolution", .vNum 7)]) =
        .serverError substringTypeErrorMsg ∧
      handleTool 0 "get_customer_data" (some [("customerId", .vObj)]) =
        .ok (.rRec unknownCustomer) ∧
      (∀ nm args, statusOf (handleTool 0 nm args) = 400 →
        nm ≠ "search_knowledge_base" ∧ nm ≠ "get_customer_data" ∧
          nm ≠ "log_interaction")) :=
  ⟨by decide, tool_no_schema_validation 0 7 (by decide)⟩

/-- C5: a `/tool` request naming an unregistered tool is answered, for any
arguments value, with `400 {success:false, error}` whose error message
lists all three registered tool names. -/
theorem unknown_tool_lists_names (now : Nat) (name : String)
    (args : Option (List (String × Js)))
    (h1 : name ≠ "search_knowledge_base") (h2 : name ≠ "get_customer_data")
    (h3 : name ≠ "log_interaction") :
    handleTool now name args =
      .badRequest ("Unknown tool: " ++ name ++
        ". Available tools: search_knowledge_base, get_customer_data, log_interaction") ∧
    statusOf (handleTool now name args) = 400 ∧
    successOf (handleTool now name args) = false := by
  have hmain : handleTool now name args =
      .badRequest ("Unknown tool: " ++ name ++
        ". Available tools: search_knowledge_base, get_customer_data, log_interaction") := by
    simp [handleTool, h1, h2, h3]
  exact ⟨hmain, by rw [hmain]; rfl, by rw [hmain]; rfl⟩

/-- Witness for C5 at the tool name `"nonexistent"` with no arguments. -/
theorem unknown_tool_lists_names_witness :
    (("nonexistent" : String) ≠ "search_knowledge_base" ∧
      ("nonexistent" : String) ≠ "get_customer_data" ∧
      ("nonexistent" : String) ≠ "log_interaction") ∧
    (handleTool 0 "nonexistent" none =
        .badRequest ("Unknown tool: " ++ "nonexistent" ++
          ". Available tools: search_knowledge_base, get_customer_data, log_interaction") ∧
      statusOf (handleTool 0 "nonexistent" none) = 400 ∧
      successOf (handleTool 0 "nonexistent" none) = false) :=
  ⟨⟨by decide, by decide, by decide⟩,
   unknown_tool_lists_names 0 "nonexistent" none (by decide) (by decide) (by decide)⟩

/-- C7: for any inputs (the empty string included) and any clock reading
whose year is below 10000, `logInteraction` returns the confirmation
string embedding a `TKT-<digits>` ticket id (a nonempty all-digit suffix)
and a well-formed ISO-8601 UTC timestamp; the function is pure — nothing
is persisted beyond the console log emission. -/
theorem log_interaction_format (now : Nat) (hnow : now < 253402300800000)
    (customerId category resolution : String) :
    ∃ ticketDigits iso,
      logInteraction now customerId category resolution =
        "Interaction logged successfully. Ticket ID: TKT-" ++ ticketDigits ++
          ". Timestamp: " ++ iso ∧
      ticketDigits ≠ "" ∧
      ticketDigits.toList.all Char.isDigit = true ∧
      isValidISO iso = true := by
  refine ⟨decString now, isoOfMs now, rfl, ?_, ?_, isValidISO_isoOfMs now⟩
  · intro hcon
    have h2 : (decString now).toList = ("" : String).toList := by rw [hcon]
    exact decDigits_ne_nil now h2
  · exact decDigits_all_isDigit now

/-- Witness for C7 at the spec's own example call, at a 2023 clock value. -/
theorem log_interaction_format_witness :
    1700000000123 < 253402300800000 ∧
    ∃ ticketDigits iso,
      logInteraction 1700000000123 "C001" "billing" "refund issued" =
        "Interaction logged successfully. Ticket ID: TKT-" ++ ticketDigits ++
          ". Timestamp: " ++ iso ∧
      ticketDigits ≠ "" ∧
      ticketDigits.toList.all Char.isDigit = true ∧
      isValidISO iso = true :=
  ⟨by decide,
   log_interaction_format 1700000000123 (by decide) "C001" "billing" "refund issued"⟩

/-- C8 counterexample: `log_interaction` is not deterministic given its
input alone — two invocations with equal string inputs at two different
clock milliseconds return different strings. -/
theorem handler_determinism_counterexample :
    logInteraction 0 "C001" "billing" "refund issued" ≠
      logInteraction 1 "C001" "billing" "refund issued" := by
  decide

/-- C8 amended: `search_knowledge_base` and `get_customer_data` are
deterministic given their input and the immutable mock stores alone —
their `/tool` responses do not depend on the clock; `log_interaction` is
deterministic given its input together with the clock reading (equal
inputs and an equal `Date.now()` millisecond give equal results, a plain
congruence of the pure model, while the counterexample shows the clock
genuinely matters). -/
theorem handler_determinism_clocked (now now2 : Nat) (name : String)
    (args : Option (List (String × Js))) (h : name ≠ "log_interaction") :
    handleTool now name args = handleTool now2 name args := by
  by_cases hs : name = "search_knowledge_base"
  · subst hs
    rw [handleTool_search_eq, handleTool_search_eq]
  · by_cases hc : name = "get_customer_data"
    · subst hc
      rw [handleTool_customer_eq, handleTool_customer_eq]
    · simp [handleTool, hs, hc, h]

/-- Witness for the amended C8: the knowledge-base tool answers alike under
two different clock readings. -/
theorem handler_determinism_clocked_witness :
    (("search_knowledge_base" : String) ≠ "log_interaction") ∧
    handleTool 0 "search_knowledge_base" (some [("query", .vStr "billing")]) =
      handleTool 1 "search_knowledge_base" (some [("query", .vStr "billing")]) :=
  ⟨by decide,
   handler_determinism_clocked 0 1 "search_knowledge_base"
     (some [("query", .vStr "billing")]) (by decide)⟩

/-- C9: on `/tool`, a known tool with an `arguments` object whose string
fields are individually absent runs on empty-string defaults and answers
200 success; when the `arguments` object itself is absent the field access
throws inside `try` and the answer is `500 {success:false}`; an unknown
tool name never touches `arguments`, answering the 400 unknown-tool
response even with no arguments at all. -/
theorem tool_endpoint_implicit_defaults (now : Nat)
    (fs fc fl : List (String × Js))
    (hq : getField fs "query" = .vUndef)
    (hcid : getField fc "customerId" = .vUndef)
    (hl1 : getField fl "customerId" = .vUndef)
    (hl2 : getField fl "category" = .vUndef)
    (hl3 : getField fl "resolution" = .vUndef) :
    handleTool now "search_knowledge_base" (some fs) = .ok (.rStr generalAnswer) ∧
    handleTool now "get_customer_data" (some fc) = .ok (.rRec unknownCustomer) ∧
    handleTool now "log_interaction" (some fl) =
      .ok (.rStr (logInteraction now "" "" "")) ∧
    statusOf (handleTool now "search_knowledge_base" none) = 500 ∧
    successOf (handleTool now "search_knowledge_base" none) = false ∧
    statusOf (handleTool now "get_customer_data" none) = 500 ∧
    statusOf (handleTool now "log_interaction" none) = 500 ∧
    handleTool now "made_up_tool" none =
      .badRequest "Unknown tool: made_up_tool. Available tools: search_knowledge_base, get_customer_data, log_interaction" := by
  refine ⟨?_, ?_, ?_, rfl, rfl, rfl, rfl, rfl⟩
  · have e : handleTool now "search_knowledge_base" (some fs) =
        (match jsOr (getField fs "query") (.vStr "") with
         | .vStr q => .ok (.rStr (searchKnowledgeBase q))
         | _ => .serverError toLowerCaseTypeErrorMsg) := rfl
    rw [e, hq]
    decide
  · have e : handleTool now "get_customer_data" (some fc) =
        .ok (toolResultOfCustomer (getCustomerData
          (jsToStr (jsOr (getField fc "customerId") (.vStr ""))))) := rfl
    rw [e, hcid]
    decide
  · have e : handleTool now "log_interaction" (some fl) =
        (match defaultIfUndefined (getField fl "resolution") with
         | .vStr resolution =>
           .ok (.rStr (logInteraction now
             (jsToStr (defaultIfUndefined (getField fl "customerId")))
             (jsToStr (defaultIfUndefined (getField fl "category"))) resolution))
         | _ => .serverError substringTypeErrorMsg) := rfl
    rw [e, hl1, hl2, hl3]
    rfl

/-- Witness for C9 at concrete argument objects with no relevant fields. -/
theorem tool_endpoint_implicit_defaults_witness :
    (getField [] "query" = .vUndef ∧
      getField [("other", .vNum 1)] "customerId" = .vUndef ∧
      getField [] "customerId" = .vUndef ∧
      getField [] "category" = .vUndef ∧
      getField [] "resolution" = .vUndef) ∧
    (handleTool 5 "search_knowledge_base" (some []) = .ok (.rStr generalAnswer) ∧
      handleTool 5 "get_customer_data" (some [("other", .vNum 1)]) =
        .ok (.rRec unknownCustomer) ∧
      handleTool 5 "log_interaction" (some []) =
        .ok (.rStr (logInteraction 5 "" "" "")) ∧
      statusOf (handleTool 5 "search_knowledge_base" none) = 500 ∧
      successOf (handleTool 5 "search_knowledge_base" none) = false ∧
      statusOf (handleTool 5 "get_customer_data" none) = 500 ∧
      statusOf (handleTool 5 "log_interaction" none) = 500 ∧
      handleTool 5 "made_up_tool" none =
        .badRequest "Unknown tool: made_up_tool. Available tools: search_knowledge_base, get_customer_data, log_interaction") :=
  ⟨⟨by decide, by decide, by decide, by decide, by decide⟩,
   tool_endpoint_implicit_defaults 5 [] [("other", .vNum 1)] []
     (by decide) (by decide) (by decide) (by decide) (by decide)⟩

end SupportMcp
